import Mathlib

/-!
Verification of the prometheus-statuspage-bridge core: a shallow embedding
of the severity-aggregation functions (`src/alert.py`), the Statuspage
client payload construction (`src/statuspage.py`), and the incident
reconciliation logic of the webhook handler (`src/app.py`), together with
theorems settling the specification's claims about them.
-/

namespace Bridge

/-! ## Data model

An Alertmanager alert is a JSON dictionary; the source reads exactly these
fields: `alert.get("status")` and, under `alert.get("annotations", {})`,
the keys `statuspageStatus`, `statuspageImpactOverride`,
`statuspageComponentStatus`, `statuspageSummary`,
`statuspageComponentName` (each via `.get` with a default, so each is
optional).  We model an alert as a record of those optional fields. -/

structure Alert where
  status : Option String := none
  statuspageStatus : Option String := none
  statuspageImpactOverride : Option String := none
  statuspageComponentStatus : Option String := none
  statuspageSummary : Option String := none
  statuspageComponentName : Option String := none
deriving DecidableEq, Repr

/-! ## src/alert.py -/

/-- Impact order `IMPACT_ORDER` from `src/alert.py` (higher index = higher severity). -/
def IMPACT_ORDER : List String := ["none", "maintenance", "minor", "major", "critical"]

/-- Component status order `COMPONENT_STATUS_ORDER` from `src/alert.py`. -/
def COMPONENT_STATUS_ORDER : List String :=
  ["operational", "under_maintenance", "degraded_performance", "partial_outage", "major_outage"]

/-- Workflow status order `STATUS_ORDER` from `src/alert.py`. -/
def STATUS_ORDER : List String := ["investigating", "identified", "monitoring", "resolved"]

/-- Python's `str.lower()` on the (ASCII) hint values: lower-case each
character. -/
def str_lower (s : String) : String := String.mk (s.data.map Char.toLower)

/-- The `for value in values` loop of `get_max_by_order`, carrying the
`max_index` / `max_value` accumulator (`max_index` starts at `-1`, hence `Int`). -/
def get_max_loop (order : List String) : List String → Int → String → Int × String
  | [], max_index, max_value => (max_index, max_value)
  | value :: rest, max_index, max_value =>
    let value_lower := str_lower value
    if value_lower ∈ order then
      let index : Int := order.indexOf value_lower
      if index > max_index then get_max_loop order rest index value_lower
      else get_max_loop order rest max_index max_value
    else get_max_loop order rest max_index max_value

/-- Function `get_max_by_order(values, order, default)` from `src/alert.py`:
get the maximum value from a list based on a severity order. -/
def get_max_by_order (values order : List String) (default : String) : String :=
  if values.isEmpty then default
  else
    let r := get_max_loop order values (-1) default
    if r.1 ≥ 0 then r.2 else default

/-- Function `get_firing_alerts(alerts)` from `src/alert.py`: filter to only firing
alerts (`a.get("status") == "firing"`). -/
def get_firing_alerts (alerts : List Alert) : List Alert :=
  alerts.filter (fun a => a.status == some "firing")

/-- Result of `calculate_severity` (a dict with these three keys in the source). -/
structure Severity where
  status : String
  impact_override : String
  component_status : String
deriving DecidableEq, Repr

/-- Function `calculate_severity(alerts)` from `src/alert.py`: status and impact use
all alerts; component status only the firing ones with a non-empty
(truthy) `statuspageComponentStatus` annotation. -/
def calculate_severity (alerts : List Alert) : Severity :=
  let firing_alerts := get_firing_alerts alerts
  let statuses := alerts.map (fun a => (a.statuspageStatus).getD "identified")
  let impacts := alerts.map (fun a => (a.statuspageImpactOverride).getD "none")
  let component_statuses :=
    (firing_alerts.filter (fun a => (a.statuspageComponentStatus).getD "" ≠ "")).map
      (fun a => (a.statuspageComponentStatus).getD "")
  { status := get_max_by_order statuses STATUS_ORDER "identified"
    impact_override := get_max_by_order impacts IMPACT_ORDER "none"
    component_status := get_max_by_order component_statuses COMPONENT_STATUS_ORDER "partial_outage" }

/-- Function `build_summary(alerts)` from `src/alert.py`: join the distinct non-empty
summaries of the firing alerts, first occurrence first. -/
def build_summary (alerts : List Alert) : String :=
  let firing_alerts := get_firing_alerts alerts
  let summaries := firing_alerts.foldl
    (fun summaries alert =>
      let summary := (alert.statuspageSummary).getD ""
      if summary ≠ "" ∧ summary ∉ summaries then summaries ++ [summary] else summaries)
    []
  if summaries.isEmpty then "Service experiencing issues"
  else String.intercalate "\n" summaries

/-- Function `get_component_name(alerts)` from `src/alert.py`: first non-empty
`statuspageComponentName`, else `"Service"`. -/
def get_component_name : List Alert → String
  | [] => "Service"
  | alert :: rest =>
    let name := (alert.statuspageComponentName).getD ""
    if name ≠ "" then name else get_component_name rest

/-! ## src/statuspage.py

The client's remote calls are modelled by the payloads they build and by
environment-supplied responses.  An unresolved incident as returned by the
API is a dict; `find_incident_for_component` reads `incident.get("components", [])`
and each `component.get("id")`, and `handle_alert` reads `existing_incident["id"]`. -/

structure IncidentComponent where
  id : Option String := none
deriving DecidableEq, Repr

structure Incident where
  id : String
  components : List IncidentComponent := []
deriving DecidableEq, Repr

/-- Method `StatuspageClient.find_incident_for_component` from `src/statuspage.py`,
applied to the list of unresolved incidents fetched for the page: return the
first incident one of whose components has the given id. -/
def find_incident_for_component (incidents : List Incident) (component_id : String) :
    Option Incident :=
  incidents.find? (fun incident => incident.components.any (fun c => c.id == some component_id))

/-- The `"incident"` object of a create/update/resolve request body
(`src/statuspage.py`); fields absent from a given payload are `none`. -/
structure IncidentPayload where
  name : Option String := none
  body : Option String := none
  status : Option String := none
  impact_override : Option String := none
  component_ids : Option (List String) := none
  components : List (String × String) := []
deriving DecidableEq, Repr

/-- Payload built by `StatuspageClient.create_incident`. -/
def create_incident_payload (component_id title body status impact_override
    component_status : String) : IncidentPayload :=
  { name := some title, body := some body, status := some status,
    impact_override := some impact_override, component_ids := some [component_id],
    components := [(component_id, component_status)] }

/-- Payload built by `StatuspageClient.update_incident`. -/
def update_incident_payload (component_id body status impact_override
    component_status : String) : IncidentPayload :=
  { body := some body, status := some status, impact_override := some impact_override,
    components := [(component_id, component_status)] }

/-- Payload built by `StatuspageClient.resolve_incident`
(`body or "All alerts have been resolved."`; component set to operational). -/
def resolve_incident_payload (component_id body : String) : IncidentPayload :=
  { status := some "resolved",
    body := some (if body = "" then "All alerts have been resolved." else body),
    components := [(component_id, "operational")] }

/-! ## src/app.py — the reconciliation core of `handle_alert`

`handle_alert` (after payload validation) performs at most these remote
calls, in order: one existence lookup, then either a resolve, an update, or
a create possibly followed by a second lookup and an update.  The remote
store's behaviour is the environment: each call either fails (an exception,
modelled as `Except.error` carrying an opaque error value) or returns a
result.  `unresolved1`/`unresolved2` are the responses to the first and
second `get_unresolved_incidents` fetch (the second occurs only in the
race-recovery path); at most one create, one update and one resolve happen
in any run, so one response field each suffices. -/

structure ClientBehavior where
  unresolved1 : Except String (List Incident)
  unresolved2 : Except String (List Incident)
  createRes : Except String Incident
  updateRes : Except String Incident
  resolveRes : Except String Incident

/-- One remote mutating-or-reading call made by the handler, with the
request payload where one is built. -/
inductive Call where
  | find (page_id component_id : String)
  | create (page_id : String) (payload : IncidentPayload)
  | update (page_id incident_id : String) (payload : IncidentPayload)
  | resolve (page_id incident_id : String) (payload : IncidentPayload)
deriving DecidableEq, Repr

/-- Function `format_title` from `src/app.py` with the default
`INCIDENT_TITLE_TEMPLATE` (`"{component_name} - Incident"`). -/
def format_title (component_name : String) : String := component_name ++ " - Incident"

/-- Function `format_body` from `src/app.py` with the default
`INCIDENT_BODY_TEMPLATE` (`"{summary}"`). -/
def format_body (summary : String) (_component_name : String) : String := summary

/-- The reconciliation core of `handle_alert` (`src/app.py`), from the first
existence lookup to the response: given the batch-level `status`, the alert
list, and the environment's responses, return the outcome (success, or the
propagated error) together with the ordered list of remote calls made.
Mirrors the source control flow, including the create-failure race recheck
(`except ... raise create_error`). -/
def reconcile (page_id component_id status : String) (alerts : List Alert)
    (beh : ClientBehavior) : Except String Unit × List Call :=
  match beh.unresolved1 with
  | .error e => (.error e, [Call.find page_id component_id])
  | .ok incidents1 =>
    let existing_incident := find_incident_for_component incidents1 component_id
    if status = "resolved" then
      match existing_incident with
      | some inc =>
        let calls := [Call.find page_id component_id,
          Call.resolve page_id inc.id (resolve_incident_payload component_id "")]
        match beh.resolveRes with
        | .error e => (.error e, calls)
        | .ok _ => (.ok (), calls)
      | none => (.ok (), [Call.find page_id component_id])
    else
      let severity := calculate_severity alerts
      let component_name := get_component_name alerts
      let summary := build_summary alerts
      let title := format_title component_name
      let body := format_body summary component_name
      match existing_incident with
      | some inc =>
        let calls := [Call.find page_id component_id,
          Call.update page_id inc.id
            (update_incident_payload component_id body severity.status
              severity.impact_override severity.component_status)]
        match beh.updateRes with
        | .error e => (.error e, calls)
        | .ok _ => (.ok (), calls)
      | none =>
        let createCall := Call.create page_id
          (create_incident_payload component_id title body severity.status
            severity.impact_override severity.component_status)
        match beh.createRes with
        | .ok _ => (.ok (), [Call.find page_id component_id, createCall])
        | .error create_error =>
          match beh.unresolved2 with
          | .error e =>
            (.error e, [Call.find page_id component_id, createCall,
              Call.find page_id component_id])
          | .ok incidents2 =>
            match find_incident_for_component incidents2 component_id with
            | some existing =>
              let calls := [Call.find page_id component_id, createCall,
                Call.find page_id component_id,
                Call.update page_id existing.id
                  (update_incident_payload component_id body severity.status
                    severity.impact_override severity.component_status)]
              match beh.updateRes with
              | .error e => (.error e, calls)
              | .ok _ => (.ok (), calls)
            | none => (.error create_error, [Call.find page_id component_id, createCall,
                Call.find page_id component_id])

/-! ## Specification-side definitions

These definitions follow the words of the specification (not the source);
they exist to be compared with the source-derived functions above. -/

/-- The survivors of rank-max for a candidate list: lower-case each value
and keep those present in the order (the values `get_max_by_order` ranks). -/
def survivors (values order : List String) : List String :=
  (values.map str_lower).filter (fun v => decide (v ∈ order))

/-- Modelled from the spec: first-occurrence deduplication by exact string
equality — keep the first occurrence of each text, drop later duplicates. -/
def firstOcc : List String → List String
  | [] => []
  | s :: rest => s :: firstOcc (rest.filter (fun x => x ≠ s))
  termination_by l => l.length
  decreasing_by exact Nat.lt_succ_of_le (List.length_filter_le _ _)

/-- Modelled from the claim's words: the workflow-status hint of one alert
after replacing an absent **or unrecognized** hint by `"identified"`
(the source replaces only an absent hint; unrecognized hints are instead
discarded by `get_max_by_order`). -/
def claimed_status_hint (a : Alert) : String :=
  match a.statuspageStatus with
  | none => "identified"
  | some s => if str_lower s ∈ STATUS_ORDER then s else "identified"

/-- Modelled from the claim's words: aggregated workflow status with every
absent-or-unrecognized hint replaced by `"identified"` before rank-max. -/
def claimed_workflow_status (alerts : List Alert) : String :=
  get_max_by_order (alerts.map claimed_status_hint) STATUS_ORDER "identified"

/-- Whether a call is an incident-creation request. -/
def Call.isCreate : Call → Bool
  | .create .. => true
  | _ => false

/-- Whether a call is an incident-update request. -/
def Call.isUpdate : Call → Bool
  | .update .. => true
  | _ => false

/-- Whether a call is an incident-resolve request. -/
def Call.isResolve : Call → Bool
  | .resolve .. => true
  | _ => false

/-- Whether a call is an existence lookup. -/
def Call.isFind : Call → Bool
  | .find .. => true
  | _ => false

/-! ## Helper lemmas: characterizing `get_max_by_order` -/

theorem survivors_nil (order : List String) : survivors [] order = [] := rfl

theorem survivors_cons (v : String) (values order : List String) :
    survivors (v :: values) order =
      if str_lower v ∈ order then str_lower v :: survivors values order
      else survivors values order := by
  simp only [survivors, List.map_cons, List.filter_cons]
  split <;> rename_i h
  · rw [if_pos (by simpa using h)]
  · rw [if_neg (by simpa using h)]

theorem survivors_append (xs ys order : List String) :
    survivors (xs ++ ys) order = survivors xs order ++ survivors ys order := by
  simp [survivors]

theorem mem_order_of_mem_survivors {s : String} {values order : List String}
    (h : s ∈ survivors values order) : s ∈ order := by
  simp only [survivors, List.mem_filter, decide_eq_true_eq] at h
  exact h.2

/-- Invariant of the `get_max_by_order` loop: either no survivor beats the
accumulator (and the accumulator is returned unchanged), or the result is a
survivor whose rank is the maximum and strictly beats the accumulator. -/
theorem get_max_loop_spec (order : List String) (values : List String) (mi : Int) (mv : String) :
    (get_max_loop order values mi mv = (mi, mv) ∧
      ∀ s ∈ survivors values order, (order.indexOf s : Int) ≤ mi) ∨
    ((get_max_loop order values mi mv).2 ∈ survivors values order ∧
      (get_max_loop order values mi mv).1 = order.indexOf (get_max_loop order values mi mv).2 ∧
      mi < (get_max_loop order values mi mv).1 ∧
      ∀ s ∈ survivors values order, (order.indexOf s : Int) ≤ (get_max_loop order values mi mv).1) := by
  induction values generalizing mi mv with
  | nil => exact Or.inl ⟨rfl, by simp [survivors_nil]⟩
  | cons v rest ih =>
    by_cases hv : str_lower v ∈ order
    · rw [show get_max_loop order (v :: rest) mi mv =
          (if (order.indexOf (str_lower v) : Int) > mi then
            get_max_loop order rest (order.indexOf (str_lower v)) (str_lower v)
          else get_max_loop order rest mi mv) from by
        simp only [get_max_loop, if_pos hv]]
      by_cases hidx : (order.indexOf (str_lower v) : Int) > mi
      · rw [if_pos hidx]
        rcases ih (order.indexOf (str_lower v)) (str_lower v) with ⟨heq, hall⟩ | ⟨hmem, hfix, hlt, hall⟩
        · refine Or.inr ⟨?_, ?_, ?_, ?_⟩
          · rw [heq]; rw [survivors_cons, if_pos hv]; exact List.mem_cons_self _ _
          · rw [heq]
          · rw [heq]; exact hidx
          · intro s hs
            rw [survivors_cons, if_pos hv] at hs
            rw [heq]
            rcases List.mem_cons.mp hs with rfl | hs
            · exact le_refl _
            · exact hall s hs
        · refine Or.inr ⟨?_, hfix, lt_trans hidx hlt, ?_⟩
          · rw [survivors_cons, if_pos hv]; exact List.mem_cons_of_mem _ hmem
          · intro s hs
            rw [survivors_cons, if_pos hv] at hs
            rcases List.mem_cons.mp hs with rfl | hs
            · exact le_of_lt hlt
            · exact hall s hs
      · rw [if_neg hidx]
        push_neg at hidx
        rcases ih mi mv with ⟨heq, hall⟩ | ⟨hmem, hfix, hlt, hall⟩
        · refine Or.inl ⟨heq, ?_⟩
          intro s hs
          rw [survivors_cons, if_pos hv] at hs
          rcases List.mem_cons.mp hs with rfl | hs
          · exact hidx
          · exact hall s hs
        · refine Or.inr ⟨?_, hfix, hlt, ?_⟩
          · rw [survivors_cons, if_pos hv]; exact List.mem_cons_of_mem _ hmem
          intro s hs
          rw [survivors_cons, if_pos hv] at hs
          rcases List.mem_cons.mp hs with rfl | hs
          · exact le_of_lt (lt_of_le_of_lt hidx hlt)
          · exact hall s hs
    · rw [show get_max_loop order (v :: rest) mi mv = get_max_loop order rest mi mv from by
        simp only [get_max_loop, if_neg hv]]
      rw [show survivors (v :: rest) order = survivors rest order from by
        rw [survivors_cons, if_neg hv]]
      exact ih mi mv

/-- Function `get_max_by_order` returns the default exactly when there is no
survivor, and otherwise a survivor of maximal rank. -/
theorem get_max_by_order_spec (values order : List String) (default : String) :
    (survivors values order = [] ∧ get_max_by_order values order default = default) ∨
    (get_max_by_order values order default ∈ survivors values order ∧
      ∀ s ∈ survivors values order,
        order.indexOf s ≤ order.indexOf (get_max_by_order values order default)) := by
  by_cases hemp : values.isEmpty
  · rw [List.isEmpty_iff] at hemp
    subst hemp
    exact Or.inl ⟨rfl, by simp [get_max_by_order]⟩
  · have hval : get_max_by_order values order default =
        (if (get_max_loop order values (-1) default).1 ≥ 0 then
          (get_max_loop order values (-1) default).2 else default) := by
      simp only [get_max_by_order, if_neg hemp]
    rcases get_max_loop_spec order values (-1) default with ⟨heq, hall⟩ | ⟨hmem, hfix, _, hall⟩
    · refine Or.inl ⟨?_, ?_⟩
      · refine List.eq_nil_iff_forall_not_mem.mpr fun s hs => ?_
        have := hall s hs
        omega
      · rw [hval, heq]
        norm_num
    · refine Or.inr ⟨?_, ?_⟩
      · rwa [hval, if_pos (by rw [hfix]; exact Int.ofNat_nonneg _)]
      · intro s hs
        have h1 := hall s hs
        rw [hfix] at h1
        rw [hval, if_pos (by rw [hfix]; exact Int.ofNat_nonneg _)]
        exact_mod_cast h1

theorem indexOf_inj_of_mem {s r : String} {order : List String}
    (hs : s ∈ order) (hr : r ∈ order) (h : order.indexOf s = order.indexOf r) : s = r := by
  have h1 : order.get ⟨order.indexOf s, List.indexOf_lt_length.mpr hs⟩ = s :=
    List.indexOf_get _
  have h2 : order.get ⟨order.indexOf r, List.indexOf_lt_length.mpr hr⟩ = r :=
    List.indexOf_get _
  rw [← h1, ← h2]
  congr 1
  exact Fin.ext h

theorem rank_max_append_valid (values order : List String) (default v : String)
    (hv : str_lower v ∈ order)
    (hge : order.indexOf (get_max_by_order values order default) ≤ order.indexOf (str_lower v)) :
    order.indexOf (get_max_by_order values order default) ≤
      order.indexOf (get_max_by_order (values ++ [v]) order default) := by
  have hsurv : str_lower v ∈ survivors (values ++ [v]) order := by
    rw [survivors_append]
    refine List.mem_append_right _ ?_
    rw [survivors_cons, if_pos hv]
    exact List.mem_cons_self _ _
  rcases get_max_by_order_spec (values ++ [v]) order default with ⟨hnil, _⟩ | ⟨_, hall⟩
  · rw [hnil] at hsurv
    exact absurd hsurv (List.not_mem_nil _)
  · exact le_trans hge (hall _ hsurv)

theorem rank_max_append_invalid (values order : List String) (default v : String)
    (hv : str_lower v ∉ order) :
    get_max_by_order (values ++ [v]) order default = get_max_by_order values order default := by
  have hsame : survivors (values ++ [v]) order = survivors values order := by
    rw [survivors_append, survivors_cons, if_neg hv, survivors_nil, List.append_nil]
  rcases get_max_by_order_spec (values ++ [v]) order default with ⟨hnil1, hdef1⟩ | ⟨hmem1, hall1⟩ <;>
    rcases get_max_by_order_spec values order default with ⟨hnil2, hdef2⟩ | ⟨hmem2, hall2⟩
  · rw [hdef1, hdef2]
  · rw [hsame] at hnil1
    rw [hnil1] at hmem2
    exact absurd hmem2 (List.not_mem_nil _)
  · rw [hsame, hnil2] at hmem1
    exact absurd hmem1 (List.not_mem_nil _)
  · rw [hsame] at hmem1 hall1
    exact indexOf_inj_of_mem (mem_order_of_mem_survivors hmem1)
      (mem_order_of_mem_survivors hmem2)
      (le_antisymm (hall2 _ hmem1) (hall1 _ hmem2))

/-! ## Helper lemmas: the summary fold -/

/-- The `build_summary` collection loop, run over the extracted summary
texts, collects exactly the first occurrences of the non-empty texts not
already in the accumulator. -/
theorem summary_fold_spec (texts : List String) (acc : List String) :
    texts.foldl
        (fun summaries summary =>
          if summary ≠ "" ∧ summary ∉ summaries then summaries ++ [summary] else summaries)
        acc =
      acc ++ firstOcc ((texts.filter (fun s => s ≠ "")).filter (fun s => s ∉ acc)) := by
  induction texts generalizing acc with
  | nil => simp [firstOcc]
  | cons t rest ih =>
    simp only [List.foldl_cons]
    by_cases ht : t = ""
    · rw [if_neg (show ¬(t ≠ "" ∧ t ∉ acc) from fun h => h.1 ht), ih,
        List.filter_cons, if_neg (by simp [ht])]
    · by_cases hacc : t ∈ acc
      · rw [if_neg (show ¬(t ≠ "" ∧ t ∉ acc) from fun h => h.2 hacc), ih,
          List.filter_cons, if_pos (by simp [ht]), List.filter_cons, if_neg (by simp [hacc])]
      · rw [if_pos (show t ≠ "" ∧ t ∉ acc from ⟨ht, hacc⟩), ih]
        have hfl : (rest.filter (fun s => s ≠ "")).filter (fun x => x ∉ acc ++ [t]) =
            ((rest.filter (fun s => s ≠ "")).filter (fun x => x ∉ acc)).filter
              (fun x => x ≠ t) := by
          conv_rhs => rw [List.filter_filter]
          refine List.filter_congr fun x _ => ?_
          by_cases h1 : x = t <;> by_cases h2 : x ∈ acc <;>
            simp [h1, h2, List.mem_append]
        rw [hfl,
          show ((t :: rest).filter (fun s => s ≠ "")).filter (fun s => s ∉ acc) =
            t :: ((rest.filter (fun s => s ≠ "")).filter (fun s => s ∉ acc)) from by
          rw [List.filter_cons, if_pos (by simp [ht]), List.filter_cons, if_pos (by simp [hacc])],
          show firstOcc (t :: (rest.filter (fun s => s ≠ "")).filter fun s => s ∉ acc) =
            t :: firstOcc (((rest.filter (fun s => s ≠ "")).filter (fun s => s ∉ acc)).filter
              (fun x => x ≠ t)) from by rw [firstOcc]]
        simp

/-! ## Claims about the severity aggregator -/

/-- C5: for every candidate list, order and default, `get_max_by_order`
lower-cases each value, discards values not present in the order, and
returns the highest-ranked survivor; if no survivor exists (in particular
for the empty list) it returns the default; comparison is case-insensitive:
`["MAJOR","minor"]` yields `"major"`. -/
theorem rank_max_characterization :
    (∀ values order default,
      (survivors values order = [] ∧ get_max_by_order values order default = default) ∨
      (get_max_by_order values order default ∈ survivors values order ∧
        ∀ s ∈ survivors values order,
          order.indexOf s ≤ order.indexOf (get_max_by_order values order default))) ∧
    (∀ order default, get_max_by_order [] order default = default) ∧
    get_max_by_order ["MAJOR", "minor"] IMPACT_ORDER "none" = "major" :=
  ⟨get_max_by_order_spec, fun _ _ => rfl, by decide⟩

/-- Witness instantiating C5's characterization at a concrete input. -/
theorem rank_max_characterization_witness :
    get_max_by_order ["MAJOR", "minor"] IMPACT_ORDER "none" = "major" :=
  rank_max_characterization.2.2

/-- C6: appending a valid value ranked at least as high as the rank-max of
the original list never decreases the result's rank, and appending a value
not present in the order leaves the result unchanged. -/
theorem rank_max_monotone :
    (∀ (values order : List String) (default v : String), str_lower v ∈ order →
      order.indexOf (get_max_by_order values order default) ≤ order.indexOf (str_lower v) →
      order.indexOf (get_max_by_order values order default) ≤
        order.indexOf (get_max_by_order (values ++ [v]) order default)) ∧
    (∀ (values order : List String) (default v : String), str_lower v ∉ order →
      get_max_by_order (values ++ [v]) order default = get_max_by_order values order default) :=
  ⟨rank_max_append_valid, rank_max_append_invalid⟩

/-- Witness instantiating C6 at concrete inputs, discharging both
hypotheses there. -/
theorem rank_max_monotone_witness :
    IMPACT_ORDER.indexOf (get_max_by_order ["minor"] IMPACT_ORDER "none") ≤
      IMPACT_ORDER.indexOf (get_max_by_order (["minor"] ++ ["MAJOR"]) IMPACT_ORDER "none") ∧
    get_max_by_order (["minor"] ++ ["bogus"]) IMPACT_ORDER "none" =
      get_max_by_order ["minor"] IMPACT_ORDER "none" :=
  ⟨rank_max_monotone.1 ["minor"] IMPACT_ORDER "none" "MAJOR" (by decide) (by decide),
   rank_max_monotone.2 ["minor"] IMPACT_ORDER "none" "bogus" (by decide)⟩

/-- C4: workflow status and impact aggregate over all alerts in the batch
while component status aggregates over the firing alerts only (so it is
unchanged by restricting the batch to its firing subset); concretely, one
firing `degraded_performance`/`minor` alert plus one resolved
`major_outage`/`critical` alert aggregates to component status
`degraded_performance` with impact `critical`, the max over both alerts. -/
theorem calculate_severity_partitioning :
    (∀ alerts, (calculate_severity alerts).component_status =
      (calculate_severity (get_firing_alerts alerts)).component_status) ∧
    (∀ alerts, (calculate_severity alerts).status =
      get_max_by_order (alerts.map (fun a => (a.statuspageStatus).getD "identified"))
        STATUS_ORDER "identified") ∧
    (∀ alerts, (calculate_severity alerts).impact_override =
      get_max_by_order (alerts.map (fun a => (a.statuspageImpactOverride).getD "none"))
        IMPACT_ORDER "none") ∧
    (∀ alerts, (calculate_severity alerts).component_status =
      get_max_by_order
        (((get_firing_alerts alerts).filter
            (fun a => (a.statuspageComponentStatus).getD "" ≠ "")).map
          (fun a => (a.statuspageComponentStatus).getD ""))
        COMPONENT_STATUS_ORDER "partial_outage") ∧
    ((calculate_severity
        [{ status := some "firing", statuspageComponentStatus := some "degraded_performance",
           statuspageImpactOverride := some "minor" },
         { status := some "resolved", statuspageComponentStatus := some "major_outage",
           statuspageImpactOverride := some "critical" }]).component_status =
      "degraded_performance" ∧
     (calculate_severity
        [{ status := some "firing", statuspageComponentStatus := some "degraded_performance",
           statuspageImpactOverride := some "minor" },
         { status := some "resolved", statuspageComponentStatus := some "major_outage",
           statuspageImpactOverride := some "critical" }]).impact_override = "critical" ∧
     get_max_by_order ["minor", "critical"] IMPACT_ORDER "none" = "critical") := by
  refine ⟨fun alerts => ?_, fun _ => rfl, fun _ => rfl, fun _ => rfl, by decide, by decide, by decide⟩
  have hff : get_firing_alerts (get_firing_alerts alerts) = get_firing_alerts alerts := by
    simp only [get_firing_alerts, List.filter_filter]
    congr 1
    funext a
    exact Bool.and_self _
  simp only [calculate_severity, hff]

/-- C8: the summary is the newline-join of the first occurrences of the
non-empty summary texts of the firing alerts, in batch order, with exact
string equality for duplicate detection, and a fixed fallback sentence when
nothing is collected; concretely, two firing alerts sharing a summary text
contribute it once. -/
theorem build_summary_construction :
    (∀ alerts : List Alert,
      build_summary alerts =
        (if (firstOcc (((get_firing_alerts alerts).map
              (fun a => (a.statuspageSummary).getD "")).filter (fun s => s ≠ ""))).isEmpty
         then "Service experiencing issues"
         else String.intercalate "\n"
           (firstOcc (((get_firing_alerts alerts).map
             (fun a => (a.statuspageSummary).getD "")).filter (fun s => s ≠ ""))))) ∧
    build_summary
        [{ status := some "firing", statuspageSummary := some "Same summary" },
         { status := some "firing", statuspageSummary := some "Same summary" },
         { status := some "firing", statuspageSummary := some "Other" }] =
      "Same summary\nOther" ∧
    build_summary [] = "Service experiencing issues" := by
  refine ⟨fun alerts => ?_, by decide, rfl⟩
  have hfold : (get_firing_alerts alerts).foldl
      (fun summaries alert =>
        let summary := (alert.statuspageSummary).getD ""
        if summary ≠ "" ∧ summary ∉ summaries then summaries ++ [summary] else summaries)
      [] =
      ((get_firing_alerts alerts).map (fun a => (a.statuspageSummary).getD "")).foldl
        (fun summaries summary =>
          if summary ≠ "" ∧ summary ∉ summaries then summaries ++ [summary] else summaries)
        [] :=
    (List.foldl_map (fun a : Alert => (a.statuspageSummary).getD "")
      (fun summaries summary =>
        if summary ≠ "" ∧ summary ∉ summaries then summaries ++ [summary] else summaries)
      (get_firing_alerts alerts) []).symm
  have hnil : ∀ l : List String, l.filter (fun s => s ∉ ([] : List String)) = l := by
    intro l
    induction l with
    | nil => rfl
    | cons x xs ihx => rw [List.filter_cons, if_pos (by simp)]; rw [ihx]
  rw [show build_summary alerts =
      (if ((get_firing_alerts alerts).foldl
          (fun summaries alert =>
            let summary := (alert.statuspageSummary).getD ""
            if summary ≠ "" ∧ summary ∉ summaries then summaries ++ [summary] else summaries)
          []).isEmpty
       then "Service experiencing issues"
       else String.intercalate "\n"
         ((get_firing_alerts alerts).foldl
          (fun summaries alert =>
            let summary := (alert.statuspageSummary).getD ""
            if summary ≠ "" ∧ summary ∉ summaries then summaries ++ [summary] else summaries)
          [])) from rfl,
    hfold, summary_fold_spec, List.nil_append, hnil]

/-- C7 counterexample: on a batch with hints `investigating` (valid) and
`bogus` (unrecognized), the code aggregates `investigating` — the
unrecognized hint is discarded — while the claim's reading (replace each
absent-or-unrecognized hint by `identified` before rank-max) would give
`identified`.  The repository's own test suite asserts the discarding
behaviour ("Unknown values are ignored"). -/
theorem status_hint_claim_counterexample :
    (calculate_severity
        [{ statuspageStatus := some "investigating" },
         { statuspageStatus := some "bogus" }]).status = "investigating" ∧
    claimed_workflow_status
        [{ statuspageStatus := some "investigating" },
         { statuspageStatus := some "bogus" }] = "identified" ∧
    ("investigating" : String) ≠ "identified" := by decide

/-- C7 (amended): an absent `statuspageStatus` hint is replaced by
`identified` before rank-max, while an unrecognized hint is discarded by
the rank-max rather than replaced; consequently a batch whose every present
hint is unrecognized still aggregates to `identified` (the rank-max
default), but an unrecognized hint never raises a lower-ranked valid hint
to `identified`. -/
theorem status_hint_defaulting :
    (∀ alerts, (calculate_severity alerts).status =
      get_max_by_order (alerts.map (fun a => (a.statuspageStatus).getD "identified"))
        STATUS_ORDER "identified") ∧
    (∀ alerts, (∀ a ∈ alerts, ∀ s, a.statuspageStatus = some s → str_lower s ∉ STATUS_ORDER) →
      (calculate_severity alerts).status = "identified") := by
  refine ⟨fun _ => rfl, fun alerts h => ?_⟩
  have hall : ∀ s ∈ survivors (alerts.map (fun a => (a.statuspageStatus).getD "identified"))
      STATUS_ORDER, s = "identified" := by
    intro s hs
    have hmem := mem_order_of_mem_survivors hs
    simp only [survivors, List.mem_filter, List.mem_map, decide_eq_true_eq] at hs
    obtain ⟨⟨e, ⟨a, ha, hae⟩, hlow⟩, _⟩ := hs
    cases hopt : a.statuspageStatus with
    | none =>
      rw [hopt] at hae
      simp only [Option.getD_none] at hae
      rw [← hlow, ← hae]
      decide
    | some s0 =>
      rw [hopt] at hae
      simp only [Option.getD_some] at hae
      have hno := h a ha s0 hopt
      rw [← hae] at hlow
      rw [← hlow] at hmem
      exact absurd hmem hno
  have hid : (calculate_severity alerts).status =
      get_max_by_order (alerts.map (fun a => (a.statuspageStatus).getD "identified"))
        STATUS_ORDER "identified" := rfl
  rcases get_max_by_order_spec (alerts.map (fun a => (a.statuspageStatus).getD "identified"))
      STATUS_ORDER "identified" with ⟨_, hdef⟩ | ⟨hm, _⟩
  · rw [hid, hdef]
  · rw [hid]
    exact hall _ hm

/-- Witness instantiating the amended C7 at a concrete all-unrecognized
batch, discharging the hypothesis there. -/
theorem status_hint_defaulting_witness :
    (calculate_severity [{ statuspageStatus := some "bogus" }]).status = "identified" :=
  status_hint_defaulting.2 [{ statuspageStatus := some "bogus" }] (by
    intro a ha s hs
    rw [List.mem_singleton] at ha
    subst ha
    have hb : some "bogus" = some s := hs
    injection hb with hb
    subst hb
    decide)

/-! ## Claims about the incident reconciler -/

/-- C1: reconciliation follows the two-input state table — no incident and
batch resolved: successful no-op; incident present and batch resolved:
resolve the incident with the component set to `operational`; no incident
and batch not resolved: create an incident from the aggregated snapshot;
incident present and batch not resolved: update it with the aggregated
snapshot. -/
theorem reconcile_state_table :
    (∀ (page_id component_id : String) (alerts : List Alert) (beh : ClientBehavior)
        (incidents1 : List Incident),
      beh.unresolved1 = .ok incidents1 →
      find_incident_for_component incidents1 component_id = none →
      reconcile page_id component_id "resolved" alerts beh =
        (.ok (), [Call.find page_id component_id])) ∧
    (∀ (page_id component_id : String) (alerts : List Alert) (beh : ClientBehavior)
        (incidents1 : List Incident) (inc r : Incident),
      beh.unresolved1 = .ok incidents1 →
      find_incident_for_component incidents1 component_id = some inc →
      beh.resolveRes = .ok r →
      reconcile page_id component_id "resolved" alerts beh =
        (.ok (), [Call.find page_id component_id,
          Call.resolve page_id inc.id (resolve_incident_payload component_id "")]) ∧
      (resolve_incident_payload component_id "").components = [(component_id, "operational")] ∧
      (resolve_incident_payload component_id "").status = some "resolved") ∧
    (∀ (page_id component_id status : String) (alerts : List Alert) (beh : ClientBehavior)
        (incidents1 : List Incident) (r : Incident),
      status ≠ "resolved" →
      beh.unresolved1 = .ok incidents1 →
      find_incident_for_component incidents1 component_id = none →
      beh.createRes = .ok r →
      reconcile page_id component_id status alerts beh =
        (.ok (), [Call.find page_id component_id,
          Call.create page_id (create_incident_payload component_id
            (format_title (get_component_name alerts))
            (format_body (build_summary alerts) (get_component_name alerts))
            (calculate_severity alerts).status
            (calculate_severity alerts).impact_override
            (calculate_severity alerts).component_status)])) ∧
    (∀ (page_id component_id status : String) (alerts : List Alert) (beh : ClientBehavior)
        (incidents1 : List Incident) (inc r : Incident),
      status ≠ "resolved" →
      beh.unresolved1 = .ok incidents1 →
      find_incident_for_component incidents1 component_id = some inc →
      beh.updateRes = .ok r →
      reconcile page_id component_id status alerts beh =
        (.ok (), [Call.find page_id component_id,
          Call.update page_id inc.id (update_incident_payload component_id
            (format_body (build_summary alerts) (get_component_name alerts))
            (calculate_severity alerts).status
            (calculate_severity alerts).impact_override
            (calculate_severity alerts).component_status)])) := by
  refine ⟨?_, ?_, ?_, ?_⟩
  · intro page_id component_id alerts beh incidents1 h1 hf
    simp only [reconcile, h1, hf, if_true]
  · intro page_id component_id alerts beh incidents1 inc r h1 hf hr
    refine ⟨?_, rfl, rfl⟩
    simp only [reconcile, h1, hf, hr, if_true]
  · intro page_id component_id status alerts beh incidents1 r hst h1 hf hc
    simp only [reconcile, h1, hf, hc, if_neg hst]
  · intro page_id component_id status alerts beh incidents1 inc r hst h1 hf hu
    simp only [reconcile, h1, hf, hu, if_neg hst]

/-- Witness instantiating all four rows of C1's state table at concrete
inputs, discharging every hypothesis there. -/
theorem reconcile_state_table_witness :
    (reconcile "p1" "c1" "resolved" []
        { unresolved1 := .ok [], unresolved2 := .ok [], createRes := .ok { id := "n" },
          updateRes := .ok { id := "n" }, resolveRes := .ok { id := "n" } } =
      (.ok (), [Call.find "p1" "c1"])) ∧
    (reconcile "p1" "c1" "resolved" []
        { unresolved1 := .ok [{ id := "i1", components := [{ id := some "c1" }] }],
          unresolved2 := .ok [], createRes := .ok { id := "n" },
          updateRes := .ok { id := "n" }, resolveRes := .ok { id := "n" } } =
      (.ok (), [Call.find "p1" "c1",
        Call.resolve "p1" "i1" (resolve_incident_payload "c1" "")])) ∧
    (reconcile "p1" "c1" "firing" []
        { unresolved1 := .ok [], unresolved2 := .ok [], createRes := .ok { id := "n" },
          updateRes := .ok { id := "n" }, resolveRes := .ok { id := "n" } } =
      (.ok (), [Call.find "p1" "c1",
        Call.create "p1" (create_incident_payload "c1" (format_title (get_component_name []))
          (format_body (build_summary []) (get_component_name []))
          (calculate_severity []).status (calculate_severity []).impact_override
          (calculate_severity []).component_status)])) ∧
    (reconcile "p1" "c1" "firing" []
        { unresolved1 := .ok [{ id := "i1", components := [{ id := some "c1" }] }],
          unresolved2 := .ok [], createRes := .ok { id := "n" },
          updateRes := .ok { id := "n" }, resolveRes := .ok { id := "n" } } =
      (.ok (), [Call.find "p1" "c1",
        Call.update "p1" "i1" (update_incident_payload "c1"
          (format_body (build_summary []) (get_component_name []))
          (calculate_severity []).status (calculate_severity []).impact_override
          (calculate_severity []).component_status)])) :=
  ⟨reconcile_state_table.1 "p1" "c1" [] _ [] rfl rfl,
   (reconcile_state_table.2.1 "p1" "c1" [] _ [{ id := "i1", components := [{ id := some "c1" }] }]
     { id := "i1", components := [{ id := some "c1" }] } { id := "n" } rfl rfl rfl).1,
   reconcile_state_table.2.2.1 "p1" "c1" "firing" [] _ [] { id := "n" } (by decide) rfl rfl rfl,
   reconcile_state_table.2.2.2 "p1" "c1" "firing" [] _
     [{ id := "i1", components := [{ id := some "c1" }] }]
     { id := "i1", components := [{ id := some "c1" }] } { id := "n" } (by decide) rfl rfl rfl⟩

/-- C2: when the batch is not resolved, no incident exists, and the create
call fails, the existence lookup is re-run exactly once; when that re-check
finds an incident, update is called exactly once on it with the snapshot
aggregated from the original batch, the overall outcome is success (the
create failure is not surfaced), and no further create is attempted. -/
theorem reconcile_race_recovered :
    ∀ (page_id component_id status : String) (alerts : List Alert) (beh : ClientBehavior)
      (incidents1 incidents2 : List Incident) (e : String) (inc r : Incident),
      status ≠ "resolved" →
      beh.unresolved1 = .ok incidents1 →
      find_incident_for_component incidents1 component_id = none →
      beh.createRes = .error e →
      beh.unresolved2 = .ok incidents2 →
      find_incident_for_component incidents2 component_id = some inc →
      beh.updateRes = .ok r →
      reconcile page_id component_id status alerts beh =
        (.ok (), [Call.find page_id component_id,
          Call.create page_id (create_incident_payload component_id
            (format_title (get_component_name alerts))
            (format_body (build_summary alerts) (get_component_name alerts))
            (calculate_severity alerts).status
            (calculate_severity alerts).impact_override
            (calculate_severity alerts).component_status),
          Call.find page_id component_id,
          Call.update page_id inc.id (update_incident_payload component_id
            (format_body (build_summary alerts) (get_component_name alerts))
            (calculate_severity alerts).status
            (calculate_severity alerts).impact_override
            (calculate_severity alerts).component_status)]) ∧
      (reconcile page_id component_id status alerts beh).2.countP Call.isUpdate = 1 ∧
      (reconcile page_id component_id status alerts beh).2.countP Call.isCreate = 1 ∧
      (reconcile page_id component_id status alerts beh).2.countP Call.isFind = 2 := by
  intro page_id component_id status alerts beh incidents1 incidents2 e inc r
    hst h1 hf1 hc h2 hf2 hu
  have heq : reconcile page_id component_id status alerts beh =
      (.ok (), [Call.find page_id component_id,
        Call.create page_id (create_incident_payload component_id
          (format_title (get_component_name alerts))
          (format_body (build_summary alerts) (get_component_name alerts))
          (calculate_severity alerts).status
          (calculate_severity alerts).impact_override
          (calculate_severity alerts).component_status),
        Call.find page_id component_id,
        Call.update page_id inc.id (update_incident_payload component_id
          (format_body (build_summary alerts) (get_component_name alerts))
          (calculate_severity alerts).status
          (calculate_severity alerts).impact_override
          (calculate_severity alerts).component_status)]) := by
    simp only [reconcile, h1, hf1, hc, h2, hf2, hu, if_neg hst]
  refine ⟨heq, ?_, ?_, ?_⟩ <;> rw [heq] <;> rfl

/-- Witness instantiating C2 at a concrete race, discharging every
hypothesis there. -/
theorem reconcile_race_recovered_witness :
    reconcile "p1" "c1" "firing" []
        { unresolved1 := .ok [], unresolved2 := .ok [{ id := "i2", components := [{ id := some "c1" }] }],
          createRes := .error "boom", updateRes := .ok { id := "i2" },
          resolveRes := .ok { id := "n" } } =
      (.ok (), [Call.find "p1" "c1",
        Call.create "p1" (create_incident_payload "c1" (format_title (get_component_name []))
          (format_body (build_summary []) (get_component_name []))
          (calculate_severity []).status (calculate_severity []).impact_override
          (calculate_severity []).component_status),
        Call.find "p1" "c1",
        Call.update "p1" "i2" (update_incident_payload "c1"
          (format_body (build_summary []) (get_component_name []))
          (calculate_severity []).status (calculate_severity []).impact_override
          (calculate_severity []).component_status)]) ∧
    (reconcile "p1" "c1" "firing" []
        { unresolved1 := .ok [], unresolved2 := .ok [{ id := "i2", components := [{ id := some "c1" }] }],
          createRes := .error "boom", updateRes := .ok { id := "i2" },
          resolveRes := .ok { id := "n" } }).2.countP Call.isUpdate = 1 ∧
    (reconcile "p1" "c1" "firing" []
        { unresolved1 := .ok [], unresolved2 := .ok [{ id := "i2", components := [{ id := some "c1" }] }],
          createRes := .error "boom", updateRes := .ok { id := "i2" },
          resolveRes := .ok { id := "n" } }).2.countP Call.isCreate = 1 ∧
    (reconcile "p1" "c1" "firing" []
        { unresolved1 := .ok [], unresolved2 := .ok [{ id := "i2", components := [{ id := some "c1" }] }],
          createRes := .error "boom", updateRes := .ok { id := "i2" },
          resolveRes := .ok { id := "n" } }).2.countP Call.isFind = 2 :=
  reconcile_race_recovered "p1" "c1" "firing" [] _ [] [{ id := "i2", components := [{ id := some "c1" }] }]
    "boom" { id := "i2", components := [{ id := some "c1" }] } { id := "i2" }
    (by decide) rfl rfl rfl rfl rfl rfl

/-- C3: when the batch is not resolved, no incident exists, the create call
fails, and the single re-check lookup again finds no incident, the original
create failure propagates to the caller unchanged and update is never
called. -/
theorem reconcile_race_genuine_failure :
    ∀ (page_id component_id status : String) (alerts : List Alert) (beh : ClientBehavior)
      (incidents1 incidents2 : List Incident) (e : String),
      status ≠ "resolved" →
      beh.unresolved1 = .ok incidents1 →
      find_incident_for_component incidents1 component_id = none →
      beh.createRes = .error e →
      beh.unresolved2 = .ok incidents2 →
      find_incident_for_component incidents2 component_id = none →
      reconcile page_id component_id status alerts beh =
        (.error e, [Call.find page_id component_id,
          Call.create page_id (create_incident_payload component_id
            (format_title (get_component_name alerts))
            (format_body (build_summary alerts) (get_component_name alerts))
            (calculate_severity alerts).status
            (calculate_severity alerts).impact_override
            (calculate_severity alerts).component_status),
          Call.find page_id component_id]) ∧
      (reconcile page_id component_id status alerts beh).2.countP Call.isUpdate = 0 := by
  intro page_id component_id status alerts beh incidents1 incidents2 e hst h1 hf1 hc h2 hf2
  have heq : reconcile page_id component_id status alerts beh =
      (.error e, [Call.find page_id component_id,
        Call.create page_id (create_incident_payload component_id
          (format_title (get_component_name alerts))
          (format_body (build_summary alerts) (get_component_name alerts))
          (calculate_severity alerts).status
          (calculate_severity alerts).impact_override
          (calculate_severity alerts).component_status),
        Call.find page_id component_id]) := by
    simp only [reconcile, h1, hf1, hc, h2, hf2, if_neg hst]
  exact ⟨heq, by rw [heq]; rfl⟩

/-- Witness instantiating C3 at a concrete genuine failure, discharging
every hypothesis there. -/
theorem reconcile_race_genuine_failure_witness :
    reconcile "p1" "c1" "firing" []
        { unresolved1 := .ok [], unresolved2 := .ok [], createRes := .error "boom",
          updateRes := .ok { id := "n" }, resolveRes := .ok { id := "n" } } =
      (.error "boom", [Call.find "p1" "c1",
        Call.create "p1" (create_incident_payload "c1" (format_title (get_component_name []))
          (format_body (build_summary []) (get_component_name []))
          (calculate_severity []).status (calculate_severity []).impact_override
          (calculate_severity []).component_status),
        Call.find "p1" "c1"]) ∧
    (reconcile "p1" "c1" "firing" []
        { unresolved1 := .ok [], unresolved2 := .ok [], createRes := .error "boom",
          updateRes := .ok { id := "n" }, resolveRes := .ok { id := "n" } }).2.countP
      Call.isUpdate = 0 :=
  reconcile_race_genuine_failure "p1" "c1" "firing" [] _ [] [] "boom"
    (by decide) rfl rfl rfl rfl rfl

/-- C9: a resolved batch whose existence lookup finds no incident is a
successful no-op: the outcome is success and the only remote call is the
lookup — no create, update, or resolve call is made. -/
theorem reconcile_resolve_absent_noop :
    ∀ (page_id component_id : String) (alerts : List Alert) (beh : ClientBehavior)
      (incidents1 : List Incident),
      beh.unresolved1 = .ok incidents1 →
      find_incident_for_component incidents1 component_id = none →
      reconcile page_id component_id "resolved" alerts beh =
        (.ok (), [Call.find page_id component_id]) ∧
      (reconcile page_id component_id "resolved" alerts beh).2.countP Call.isCreate = 0 ∧
      (reconcile page_id component_id "resolved" alerts beh).2.countP Call.isUpdate = 0 ∧
      (reconcile page_id component_id "resolved" alerts beh).2.countP Call.isResolve = 0 := by
  intro page_id component_id alerts beh incidents1 h1 hf
  have heq : reconcile page_id component_id "resolved" alerts beh =
      (.ok (), [Call.find page_id component_id]) := by
    simp only [reconcile, h1, hf, if_true]
  exact ⟨heq, by rw [heq]; rfl, by rw [heq]; rfl, by rw [heq]; rfl⟩

/-- Witness instantiating C9 at a concrete input, discharging the
hypotheses there. -/
theorem reconcile_resolve_absent_noop_witness :
    reconcile "p1" "c1" "resolved" []
        { unresolved1 := .ok [], unresolved2 := .ok [], createRes := .ok { id := "n" },
          updateRes := .ok { id := "n" }, resolveRes := .ok { id := "n" } } =
      (.ok (), [Call.find "p1" "c1"]) ∧
    (reconcile "p1" "c1" "resolved" []
        { unresolved1 := .ok [], unresolved2 := .ok [], createRes := .ok { id := "n" },
          updateRes := .ok { id := "n" }, resolveRes := .ok { id := "n" } }).2.countP
      Call.isCreate = 0 ∧
    (reconcile "p1" "c1" "resolved" []
        { unresolved1 := .ok [], unresolved2 := .ok [], createRes := .ok { id := "n" },
          updateRes := .ok { id := "n" }, resolveRes := .ok { id := "n" } }).2.countP
      Call.isUpdate = 0 ∧
    (reconcile "p1" "c1" "resolved" []
        { unresolved1 := .ok [], unresolved2 := .ok [], createRes := .ok { id := "n" },
          updateRes := .ok { id := "n" }, resolveRes := .ok { id := "n" } }).2.countP
      Call.isResolve = 0 :=
  reconcile_resolve_absent_noop "p1" "c1" [] _ [] rfl rfl

/-- C10 (implicit): in the race-recovery path, when the create call fails
and the re-check existence lookup itself fails, the lookup's failure is the
one that propagates: the outcome is the lookup's error for every create
error (so the original create failure is discarded whenever the two errors
differ), and the update path is never reached. -/
theorem reconcile_recheck_lookup_failure :
    ∀ (page_id component_id status : String) (alerts : List Alert) (beh : ClientBehavior)
      (incidents1 : List Incident) (create_error lookup_error : String),
      status ≠ "resolved" →
      beh.unresolved1 = .ok incidents1 →
      find_incident_for_component incidents1 component_id = none →
      beh.createRes = .error create_error →
      beh.unresolved2 = .error lookup_error →
      reconcile page_id component_id status alerts beh =
        (.error lookup_error, [Call.find page_id component_id,
          Call.create page_id (create_incident_payload component_id
            (format_title (get_component_name alerts))
            (format_body (build_summary alerts) (get_component_name alerts))
            (calculate_severity alerts).status
            (calculate_severity alerts).impact_override
            (calculate_severity alerts).component_status),
          Call.find page_id component_id]) ∧
      (reconcile page_id component_id status alerts beh).2.countP Call.isUpdate = 0 ∧
      (lookup_error ≠ create_error →
        (reconcile page_id component_id status alerts beh).1 ≠ .error create_error) := by
  intro page_id component_id status alerts beh incidents1 create_error lookup_error
    hst h1 hf1 hc h2
  have heq : reconcile page_id component_id status alerts beh =
      (.error lookup_error, [Call.find page_id component_id,
        Call.create page_id (create_incident_payload component_id
          (format_title (get_component_name alerts))
          (format_body (build_summary alerts) (get_component_name alerts))
          (calculate_severity alerts).status
          (calculate_severity alerts).impact_override
          (calculate_severity alerts).component_status),
        Call.find page_id component_id]) := by
    simp only [reconcile, h1, hf1, hc, h2, if_neg hst]
  refine ⟨heq, by rw [heq]; rfl, fun hne hcontra => hne ?_⟩
  rw [heq] at hcontra
  exact (Except.error.injEq _ _).mp hcontra.symm |>.symm ▸ rfl

/-- Witness instantiating C10 at concrete distinct errors, discharging
every hypothesis there. -/
theorem reconcile_recheck_lookup_failure_witness :
    reconcile "p1" "c1" "firing" []
        { unresolved1 := .ok [], unresolved2 := .error "lookup down",
          createRes := .error "boom", updateRes := .ok { id := "n" },
          resolveRes := .ok { id := "n" } } =
      (.error "lookup down", [Call.find "p1" "c1",
        Call.create "p1" (create_incident_payload "c1" (format_title (get_component_name []))
          (format_body (build_summary []) (get_component_name []))
          (calculate_severity []).status (calculate_severity []).impact_override
          (calculate_severity []).component_status),
        Call.find "p1" "c1"]) ∧
    (reconcile "p1" "c1" "firing" []
        { unresolved1 := .ok [], unresolved2 := .error "lookup down",
          createRes := .error "boom", updateRes := .ok { id := "n" },
          resolveRes := .ok { id := "n" } }).2.countP Call.isUpdate = 0 ∧
    (("lookup down" : String) ≠ "boom" →
      (reconcile "p1" "c1" "firing" []
        { unresolved1 := .ok [], unresolved2 := .error "lookup down",
          createRes := .error "boom", updateRes := .ok { id := "n" },
          resolveRes := .ok { id := "n" } }).1 ≠ .error "boom") :=
  reconcile_recheck_lookup_failure "p1" "c1" "firing" [] _ [] "boom" "lookup down"
    (by decide) rfl rfl rfl rfl

end Bridge
